import Mathlib

/-!
Verification development for the restaurant-AI multi-tenant response
pipeline.  The definitions below are a shallow embedding of the Python
sources `app_async.py` (aiohttp multi-restaurant pipeline) and
`app_clean.py` (single-restaurant pipeline with a rule-based fallback
engine).  Pure functions are translated to Lean functions; the stateful
parts (Redis cache, PostgreSQL store, conversation log, the shared
`IntelligentAI` instance) are translated to explicit state passing over
a `World`/`CleanState` record.  Exceptions are modelled with `Option`
(a `none` is a raised exception); external randomness (`random.choice`,
`random.sample`, Python string `hash`) is modelled as an injected seed
or function parameter; the generative backend is modelled as a function
parameter returning either text or an error status.
-/

namespace RestaurantAI

/-! ### String helpers (Python semantics) -/

/-- Membership of `needle` as a contiguous sublist of `hay`
(Python `needle in hay` for strings, on the character lists). -/
def listContainsSub : List Char → List Char → Bool
  | needle, [] => needle.isEmpty
  | needle, c :: rest => needle.isPrefixOf (c :: rest) || listContainsSub needle rest

/-- Python `needle in hay` for strings: verbatim substring containment. -/
def strIn (needle hay : String) : Bool :=
  listContainsSub needle.data hay.data

/-- Python `s.lower()` (ASCII, which covers every string this program
builds). -/
def pyLower (s : String) : String := String.mk (s.data.map Char.toLower)

/-- Whitespace stripped by Python `s.strip()`. -/
def isWS (c : Char) : Bool := c == ' ' || c == '\t' || c == '\n' || c == '\r'

/-- Python `s.strip()`. -/
def pyTrim (s : String) : String :=
  String.mk (((s.data.dropWhile isWS).reverse.dropWhile isWS).reverse)

/-- Split a character list on a separator (Python `s.split(sep)` with a
one-character separator: always at least one, possibly empty, field). -/
def splitOnChar (sep : Char) : List Char → List (List Char)
  | [] => [[]]
  | c :: rest =>
    let r := splitOnChar sep rest
    if c == sep then [] :: r
    else (c :: r.headD []) :: r.tail

/-- Python `s.split(sep)` for a one-character separator. -/
def pySplit (s : String) (sep : Char) : List String :=
  (splitOnChar sep s.data).map String.mk

/-- Python `s.startswith(pre)`. -/
def pyStartsWith (s pre : String) : Bool := pre.data.isPrefixOf s.data

/-- Python `c in s` for a single character. -/
def pyContainsChar (s : String) (c : Char) : Bool := s.data.any (fun d => d == c)

/-- Python `True` / `False` rendering used in f-strings. -/
def pyBool (b : Bool) : String := if b then "True" else "False"

/-- Python `l[-n:]`. -/
def takeLast (n : Nat) (l : List α) : List α := l.drop (l.length - n)

/-- Format a price in whole cents as `X.XX` (the effect of Python's
`:.2f` on the exact-cent prices occurring in this program). -/
def fmtPrice (q : ℚ) : String :=
  let cents : Int := (q * 100).floor
  let n := cents.toNat
  toString (n / 100) ++ "." ++ (if n % 100 < 10 then "0" else "") ++ toString (n % 100)

/-! ### Data model -/

/-- A menu item row (`menu_items` table of `app_async.py`, and the
`MENU_DATA` entries of `app_clean.py`). -/
structure MenuItem where
  id : Nat
  name : String
  description : String
  price : ℚ
  category : String
  ingredients : List String
  allergens : List String
  vegetarian : Bool
  vegan : Bool
  gluten_free : Bool
  spice_level : Nat
  prep_time : String
  calories : Nat
  chef_notes : String
  deriving Repr, DecidableEq

/-- A tenant row (`restaurants` table). -/
structure Restaurant where
  id : String
  name : String
  subdomain : String
  slug : String
  ai_name : Option String
  ai_personality : Option String
  welcome_message : Option String
  active : Bool
  deriving Repr, DecidableEq

/-- One appended conversation fact (`conversations` table). -/
structure ConvRecord where
  restaurant_id : String
  session_id : String
  message : String
  response : String
  deriving Repr, DecidableEq

/-- Parsed JSON body of a chat request (`message`, `session_id`,
optional `restaurant_id`); `none` fields are absent keys. -/
structure ChatBody where
  restaurant_id : Option String
  message : Option String
  session_id : Option String
  deriving Repr, DecidableEq

/-- The attributes of an inbound request that the pipeline reads:
host, path, the `restaurant_id` query parameter, and the body
(`none` body = unparsable JSON). -/
structure Request where
  host : String
  path : String
  query_restaurant_id : Option String
  body : Option ChatBody
  deriving Repr, DecidableEq

/-! ### Tenant resolver (`RestaurantWebApp.get_restaurant_from_request`) -/

/-- Routing scheme of a resolved tenant identifier. -/
inductive Scheme where
  | subdomain
  | slug
  deriving Repr, DecidableEq

/-- The reserved leftmost host labels of `get_restaurant_from_request`. -/
def reserved_subdomains : List String := ["www", "app", "api"]

/-- Path-based routing: `path.startswith('/r/')`, then
`parts = path.split('/')`, `parts[2]` when `len(parts) >= 3`. -/
def path_route (path : String) : Option (Scheme × String) :=
  if pyStartsWith path "/r/" then
    match pySplit path '/' with
    | _ :: _ :: s :: _ => some (Scheme.slug, s)
    | _ => none
  else none

/-- Leftmost label of the lower-cased host (`host.split('.')[0]`). -/
def leftLabel (host : String) : String := (pySplit (pyLower host) '.').headD ""

/-- `RestaurantWebApp.get_restaurant_from_request`: host-based
subdomain routing first (skipping reserved labels), then path-based
`/r/<slug>` routing.  Only `host` and `path` are read here. -/
def get_restaurant_from_request (req : Request) : Option (Scheme × String) :=
  let host := pyLower req.host
  if pyContainsChar host '.' then
    let subdomain := (pySplit host '.').headD ""
    if reserved_subdomains.contains subdomain then path_route req.path
    else some (Scheme.subdomain, subdomain)
  else path_route req.path

/-- Tenant resolution of `handle_menu`: the resolver, then the
`restaurant_id` query parameter as fallback (truthy check). -/
def resolve_menu_tenant (req : Request) : Option (Scheme × String) :=
  match get_restaurant_from_request req with
  | some r => some r
  | none =>
    match req.query_restaurant_id with
    | some rid => if rid = "" then none else some (Scheme.slug, rid)
    | none => none

/-- Tenant resolution of `handle_chat`: the resolver, then the
`restaurant_id` field of the parsed body as fallback (truthy check). -/
def resolve_chat_tenant (req : Request) : Option (Scheme × String) :=
  match get_restaurant_from_request req with
  | some r => some r
  | none =>
    match req.body with
    | some data =>
      match data.restaurant_id with
      | some rid => if rid = "" then none else some (Scheme.slug, rid)
      | none => none
    | none => none

/-! ### Recommendation extractors -/

/-- Shape of a recommendation returned by the async pipeline
(`_extract_recommendations` of `MultiRestaurantAI` copies these four
fields out of the matched item). -/
structure RecOut where
  id : Nat
  name : String
  price : ℚ
  description : String
  deriving Repr, DecidableEq

/-- The projection performed by the async extractor on a match. -/
def recOf (item : MenuItem) : RecOut :=
  { id := item.id, name := item.name, price := item.price, description := item.description }

/-- Scan loop of `MultiRestaurantAI._extract_recommendations`:
append each item whose lower-cased name occurs in the lower-cased
response, stopping once two matches are collected. -/
def extractAsyncGo (response_lower : String) : List MenuItem → List RecOut → List RecOut
  | [], acc => acc
  | item :: rest, acc =>
    if strIn (pyLower item.name) response_lower then
      let acc2 := acc ++ [recOf item]
      if acc2.length ≥ 2 then acc2 else extractAsyncGo response_lower rest acc2
    else extractAsyncGo response_lower rest acc

/-- `MultiRestaurantAI._extract_recommendations` (async pipeline). -/
def extract_recommendations_async (response : String) (menu_items : List MenuItem) : List RecOut :=
  extractAsyncGo (pyLower response) menu_items []

/-- First three menu items (`IntelligentAI._get_featured_items`). -/
def get_featured_items (menu : List MenuItem) : List MenuItem := menu.take 3

/-- Scan loop of `IntelligentAI._extract_recommendations`: a match is
the item name or one of its first two ingredients occurring in the
lower-cased response; stops after two matches. -/
def extractCleanGo (response_lower : String) : List MenuItem → List MenuItem → List MenuItem
  | [], acc => acc
  | item :: rest, acc =>
    if strIn (pyLower item.name) response_lower
        || (item.ingredients.take 2).any (fun ing => strIn (pyLower ing) response_lower) then
      let acc2 := acc ++ [item]
      if acc2.length ≥ 2 then acc2 else extractCleanGo response_lower rest acc2
    else extractCleanGo response_lower rest acc

/-- `IntelligentAI._extract_recommendations` (clean pipeline): on no
match it falls back to the first two featured items. -/
def extract_recommendations_clean (ai_response : String) (menu : List MenuItem) : List MenuItem :=
  let found := extractCleanGo (pyLower ai_response) menu []
  if found.isEmpty then (get_featured_items menu).take 2 else found

/-! ### The fixed menu of `app_clean.py` (`MENU_DATA`) -/

/-- The six `MENU_DATA` entries of `app_clean.py`. -/
def MENU_DATA : List MenuItem := [
  { id := 1, name := "Grilled Atlantic Salmon",
    description := "Fresh Atlantic salmon with lemon herb butter, seasonal roasted vegetables, and wild rice pilaf",
    price := 28.99, category := "main",
    ingredients := ["Atlantic salmon", "lemon", "herbs", "seasonal vegetables", "wild rice"],
    allergens := ["fish"], vegetarian := false, vegan := false, gluten_free := true,
    spice_level := 0, prep_time := "20 minutes", calories := 420,
    chef_notes := "Our most popular healthy option, rich in omega-3 fatty acids" },
  { id := 2, name := "Thai Red Curry Bowl",
    description := "Authentic red curry with coconut milk, mixed vegetables, Thai basil, and jasmine rice",
    price := 22.99, category := "main",
    ingredients := ["red curry paste", "coconut milk", "vegetables", "Thai basil", "jasmine rice"],
    allergens := ["coconut"], vegetarian := true, vegan := true, gluten_free := true,
    spice_level := 4, prep_time := "15 minutes", calories := 380,
    chef_notes := "Authentic Thai flavors with adjustable spice level" },
  { id := 3, name := "Classic Caesar Salad",
    description := "Crisp romaine lettuce, house-made Caesar dressing, parmesan cheese, and garlic croutons",
    price := 14.99, category := "appetizer",
    ingredients := ["romaine lettuce", "parmesan cheese", "garlic croutons", "Caesar dressing"],
    allergens := ["dairy", "gluten", "eggs"], vegetarian := true, vegan := false, gluten_free := false,
    spice_level := 0, prep_time := "10 minutes", calories := 320,
    chef_notes := "A timeless classic with our signature house-made dressing" },
  { id := 4, name := "Molten Chocolate Cake",
    description := "Warm chocolate cake with molten center, vanilla bean ice cream, and fresh berries",
    price := 9.99, category := "dessert",
    ingredients := ["dark chocolate", "eggs", "flour", "vanilla ice cream", "fresh berries"],
    allergens := ["dairy", "gluten", "eggs"], vegetarian := true, vegan := false, gluten_free := false,
    spice_level := 0, prep_time := "12 minutes", calories := 480,
    chef_notes := "Best enjoyed immediately while the center is still molten" },
  { id := 5, name := "Mediterranean Quinoa Bowl",
    description := "Quinoa with roasted vegetables, chickpeas, feta cheese, olives, and tahini dressing",
    price := 18.99, category := "main",
    ingredients := ["quinoa", "roasted vegetables", "chickpeas", "feta cheese", "olives", "tahini"],
    allergens := ["dairy", "sesame"], vegetarian := true, vegan := false, gluten_free := true,
    spice_level := 1, prep_time := "15 minutes", calories := 350,
    chef_notes := "Packed with protein and Mediterranean flavors" },
  { id := 6, name := "Artisan Bruschetta",
    description := "Toasted sourdough with fresh tomatoes, basil, garlic, and extra virgin olive oil",
    price := 11.99, category := "appetizer",
    ingredients := ["sourdough bread", "tomatoes", "basil", "garlic", "olive oil"],
    allergens := ["gluten"], vegetarian := true, vegan := true, gluten_free := false,
    spice_level := 0, prep_time := "8 minutes", calories := 180,
    chef_notes := "Made with locally sourced tomatoes and fresh herbs" }]

/-! ### Rule Engine (`IntelligentAI` fallback handlers of `app_clean.py`)

The source reads the module-global `MENU_DATA`; the definitions below
take the menu as a parameter and the clean pipeline instantiates it
with `MENU_DATA`.  `random.choice` / `random.sample` are modelled by a
seed: `randChoice` picks a seeded index and `random_sample` takes a
seeded rotation, preserving the contract of `random.sample` (it returns
the requested number of elements of the list, without replacement). -/

/-- Response of a rule-engine handler: a message and recommendations. -/
structure RuleResponse where
  message : String
  recommendations : List MenuItem
  deriving Repr, DecidableEq

/-- Seeded stand-in for `random.choice` on the literal response lists. -/
def randChoice (seed : Nat) (xs : List String) : String :=
  xs.getD (seed % xs.length) ""

/-- Seeded rotation of a list. -/
def rotateBy (seed : Nat) (xs : List α) : List α :=
  let k := seed % (xs.length + 1)
  xs.drop k ++ xs.take k

/-- Seeded stand-in for `random.sample xs n` (`n ≤ xs.length`). -/
def random_sample (seed : Nat) (xs : List α) (n : Nat) : List α :=
  (rotateBy seed xs).take n

/-- `IntelligentAI._get_random_items`: `random.sample(menu, min(count, len(menu)))`. -/
def get_random_items (seed : Nat) (menu : List MenuItem) (count : Nat) : List MenuItem :=
  random_sample seed menu (min count menu.length)

/-- `IntelligentAI._get_popular_items`: sort ascending by
`calories + (30 - price)` and take the first three. -/
def get_popular_items (menu : List MenuItem) : List MenuItem :=
  (menu.mergeSort (fun a b =>
    ((a.calories : ℚ) + (30 - a.price)) ≤ ((b.calories : ℚ) + (30 - b.price)))).take 3

/-- `IntelligentAI._is_greeting`. -/
def is_greeting (m : String) : Bool :=
  ["hello", "hi", "hey", "good morning", "good afternoon", "good evening"].any
    (fun g => strIn g m)

/-- `IntelligentAI._is_menu_query`. -/
def is_menu_query (m : String) : Bool :=
  ["menu", "dishes", "food", "eat", "order", "available", "serve"].any
    (fun k => strIn k m)

/-- `IntelligentAI._is_dietary_query`. -/
def is_dietary_query (m : String) : Bool :=
  ["vegetarian", "vegan", "gluten", "allergy", "dairy", "nuts"].any
    (fun k => strIn k m)

/-- `IntelligentAI._is_recommendation_request`. -/
def is_recommendation_request (m : String) : Bool :=
  ["recommend", "suggest", "best", "popular", "hungry", "mood", "craving"].any
    (fun k => strIn k m)

/-- `IntelligentAI._is_specific_item_query`. -/
def is_specific_item_query (menu : List MenuItem) (m : String) : Bool :=
  menu.any (fun item =>
    strIn (pyLower item.name) m
      || item.ingredients.any (fun ing => strIn (pyLower ing) m))

/-- First-turn greeting variants of `IntelligentAI._handle_greeting`. -/
def greeting_first_responses : List String := [
  "Hello! Welcome to our restaurant! I'm your AI dining assistant, here to help you discover delicious dishes that match your taste. What can I help you find today?",
  "Hi there! I'm excited to help you explore our menu and find something amazing to eat. Are you looking for something specific, or would you like me to suggest some popular options?",
  "Welcome! I'm here to make your dining experience special. Whether you're craving something specific or want to try something new, I'm here to help. What sounds good to you?"]

/-- Repeat greeting variants of `IntelligentAI._handle_greeting`. -/
def greeting_repeat_responses : List String := [
  "Nice to see you again! What else can I help you with from our menu?",
  "How can I assist you further with your dining choices?",
  "What other questions do you have about our dishes?"]

/-- `IntelligentAI._handle_greeting`; also returns the updated
`greeting_used` flag (the source mutates `self.greeting_used`). -/
def handle_greeting (menu : List MenuItem) (greeting_used : Bool) (seed : Nat) :
    RuleResponse × Bool :=
  if !greeting_used then
    ({ message := randChoice seed greeting_first_responses,
       recommendations := get_featured_items menu }, true)
  else
    ({ message := randChoice seed greeting_repeat_responses,
       recommendations := get_featured_items menu }, true)

/-- Smallest element of a price list (`min(prices)`; total stand-in,
the caller guards against the empty list that raises in Python). -/
def listMin (xs : List ℚ) : ℚ := xs.foldl min (xs.headD 0)

/-- Largest element of a price list (`max(prices)`). -/
def listMax (xs : List ℚ) : ℚ := xs.foldl max (xs.headD 0)

/-- `IntelligentAI._handle_menu_query`.  Python `set` iteration order
is replaced by first-occurrence deduplication; `min()`/`max()` on an
empty menu raise a `ValueError`, modelled as `none`. -/
def handle_menu_query (menu : List MenuItem) (seed : Nat) (m : String) :
    Option RuleResponse :=
  let response? : Option String :=
    if strIn "categories" m || strIn "types" m then
      let categories := (menu.map (fun i => i.category)).dedup
      some ("We offer dishes in these categories: " ++ String.intercalate ", " categories
        ++ ". We have " ++ toString menu.length
        ++ " delicious options total. Would you like to explore any specific category?")
    else if strIn "price" m || strIn "cost" m then
      match menu with
      | [] => none
      | _ =>
        let prices := menu.map (fun i => i.price)
        some ("Our menu prices range from $" ++ fmtPrice (listMin prices) ++ " to $"
          ++ fmtPrice (listMax prices)
          ++ ". Most of our main courses are around $20-25. What's your budget range today?")
    else
      some ("Our menu features " ++ toString menu.length
        ++ " carefully crafted dishes, from appetizers to desserts. We have options for every dietary preference and taste. What type of food are you in the mood for?")
  response?.map (fun response =>
    { message := response, recommendations := get_random_items seed menu 3 })

/-- `IntelligentAI._handle_dietary_query`. -/
def handle_dietary_query (menu : List MenuItem) (seed : Nat) (m : String) : RuleResponse :=
  let pr : String × List MenuItem :=
    if strIn "vegetarian" m then
      let veg_items := menu.filter (fun i => i.vegetarian)
      ("We have " ++ toString veg_items.length ++ " delicious vegetarian options! ",
       veg_items.take 2)
    else if strIn "vegan" m then
      let vegan_items := menu.filter (fun i => i.vegan)
      ("We offer " ++ toString vegan_items.length ++ " tasty vegan dishes! ",
       vegan_items.take 2)
    else if strIn "gluten" m then
      let gf_items := menu.filter (fun i => i.gluten_free)
      ("We have " ++ toString gf_items.length ++ " gluten-free options available! ",
       gf_items.take 2)
    else
      ("I'd be happy to help with dietary preferences! We accommodate vegetarian, vegan, and gluten-free diets. We also list all allergens for each dish. What specific dietary needs do you have?",
       get_random_items seed menu 2)
  let response :=
    if pr.2.isEmpty then pr.1
    else pr.1 ++ "I especially recommend: "
      ++ String.intercalate " and " (pr.2.map (fun i => i.name)) ++ "."
  { message := response, recommendations := pr.2 }

/-- `IntelligentAI._handle_recommendation_request`. -/
def handle_recommendation_request (menu : List MenuItem) (m : String) :
    RuleResponse :=
  let pr : List MenuItem × String :=
    if ["hungry", "starving", "filling"].any (fun wd => strIn wd m) then
      (menu.filter (fun i => i.category == "main" && i.calories > 350),
       "You sound really hungry! I recommend our hearty main courses that will definitely satisfy your appetite.")
    else if ["light", "small", "not very hungry"].any (fun wd => strIn wd m) then
      (menu.filter (fun i => i.category == "appetizer" || i.calories < 300),
       "For something light, our appetizers are perfect, or I can suggest some lighter main dishes.")
    else if ["spicy", "hot"].any (fun wd => strIn wd m) then
      (menu.filter (fun i => i.spice_level > 2),
       "Looking for some heat? Our spicy dishes will definitely give you that kick you're craving!")
    else if ["healthy", "nutritious", "diet"].any (fun wd => strIn wd m) then
      (menu.filter (fun i => i.calories < 400 || i.gluten_free),
       "For healthy choices, I recommend our nutritious options that are both delicious and good for you.")
    else if ["sweet", "dessert"].any (fun wd => strIn wd m) then
      (menu.filter (fun i => i.category == "dessert"),
       "Our desserts are absolutely divine! Perfect way to end your meal on a sweet note.")
    else
      (get_popular_items menu,
       "I'd love to recommend some of our most popular dishes that guests absolutely love!")
  { message := pr.2, recommendations := pr.1.take 2 }

/-- `IntelligentAI._handle_specific_item_query`. -/
def handle_specific_item_query (menu : List MenuItem) (seed : Nat) (m : String) :
    RuleResponse :=
  match menu.find? (fun item => strIn (pyLower item.name) m) with
  | some item =>
    let response := "Great choice! Our " ++ item.name ++ " is " ++ item.description
      ++ " It's priced at $" ++ fmtPrice item.price ++ "."
    let response := if strIn "ingredient" m then
        response ++ " The main ingredients are: "
          ++ String.intercalate ", " item.ingredients ++ "."
      else response
    let response := if strIn "allerg" m then
        if item.allergens.isEmpty then response ++ " This dish has no major allergens."
        else response ++ " Please note it contains: "
          ++ String.intercalate ", " item.allergens ++ "."
      else response
    let response := if strIn "spicy" m || strIn "hot" m then
        response ++ " The spice level is " ++ toString item.spice_level ++ " out of 5."
      else response
    let response := if strIn "time" m then
        response ++ " Preparation time is about " ++ item.prep_time ++ "."
      else response
    { message := response, recommendations := [item] }
  | none =>
    { message := "I'd be happy to tell you about any of our dishes! Could you be more specific about which item you're interested in, or would you like me to suggest something based on your preferences?",
      recommendations := get_random_items seed menu 2 }

/-- `IntelligentAI._handle_general_conversation`. -/
def handle_general_conversation (menu : List MenuItem) (seed : Nat) (m : String) :
    RuleResponse :=
  let responses :=
    if ["how are you", "how do you do"].any (fun wd => strIn wd m) then [
      "I'm doing great, thank you for asking! I'm excited to help you find something delicious to eat. What sounds good to you today?",
      "I'm wonderful, thanks! Ready to help you discover your next favorite dish. What are you in the mood for?"]
    else if ["thank you", "thanks"].any (fun wd => strIn wd m) then [
      "You're very welcome! I'm here whenever you need help with our menu. Anything else I can assist you with?",
      "My pleasure! I love helping people find great food. Is there anything else you'd like to know?"]
    else if ["bye", "goodbye", "see you"].any (fun wd => strIn wd m) then [
      "Goodbye! I hope you enjoy your meal and have a wonderful dining experience. Come back anytime!",
      "Have a fantastic meal! It was great helping you today. See you next time!"]
    else [
      "That's an interesting question! While I specialize in helping with our menu and dining recommendations, I'm always happy to chat. Speaking of food, is there anything from our menu I can help you with?",
      "I appreciate you asking! I'm here primarily to help you navigate our delicious menu options. What kind of flavors are you craving today?",
      "Thanks for sharing! I'd love to help you find something amazing to eat. Are you looking for any particular type of cuisine or dish?"]
  { message := randChoice seed responses,
    recommendations := get_random_items seed menu 2 }

/-- `IntelligentAI._generate_fallback_response`: the strict-priority
intent dispatch over the lower-cased, stripped message.  Returns the
response and the updated `greeting_used` flag; `none` is a raised
exception (reachable only through `_handle_menu_query`). -/
def generate_fallback_response (menu : List MenuItem) (greeting_used : Bool) (seed : Nat)
    (user_message : String) : Option (RuleResponse × Bool) :=
  let m := pyTrim (pyLower user_message)
  if is_greeting m then
    some (handle_greeting menu greeting_used seed)
  else if is_menu_query m then
    (handle_menu_query menu seed m).map (fun r => (r, greeting_used))
  else if is_dietary_query m then
    some (handle_dietary_query menu seed m, greeting_used)
  else if is_recommendation_request m then
    some (handle_recommendation_request menu m, greeting_used)
  else if is_specific_item_query menu m then
    some (handle_specific_item_query menu seed m, greeting_used)
  else
    some (handle_general_conversation menu seed m, greeting_used)

/-! ### Clean pipeline (`IntelligentAI` / `RestaurantHandler` of `app_clean.py`) -/

/-- Outcome of one generative-backend call: the raw response text, or
an upstream failure (transport error, non-2xx status, malformed body),
which the Python client raises. -/
inductive BackendResult where
  | ok (text : String)
  | err (status : Nat)

/-- Mutable state of the shared `IntelligentAI` instance: the
conversation history (role, content) and the greeting flag. -/
structure CleanState where
  conversation_history : List (String × String)
  greeting_used : Bool
  deriving Repr, DecidableEq

/-- Menu block of `IntelligentAI._build_system_prompt`. -/
def clean_menu_text (menu : List MenuItem) : String :=
  String.intercalate "\n" (menu.map (fun item =>
    "- " ++ item.name ++ ": " ++ item.description ++ " ($" ++ fmtPrice item.price ++ ") "
      ++ "[Category: " ++ item.category ++ ", Vegetarian: " ++ pyBool item.vegetarian
      ++ ", Vegan: " ++ pyBool item.vegan ++ ", Gluten-free: " ++ pyBool item.gluten_free
      ++ ", Spice level: " ++ toString item.spice_level ++ "/5, Calories: "
      ++ toString item.calories ++ "]"))

/-- `IntelligentAI._build_system_prompt`. -/
def clean_build_system_prompt (menu : List MenuItem) : String :=
  "You're Sophie, a warm and charming dining companion helping someone pick from our menu. Be brief but WARM and ENGAGING.\n\nRESTAURANT MENU:\n"
  ++ clean_menu_text menu
  ++ "\n\nPERSONALITY RULES:\n- SHORT but WARM responses - aim for 10-20 words\n- Always acknowledge their mood/request with enthusiasm\n- Make connections - show you \"get\" what they want\n- Use positive energy: \"Oh!\", \"Yes!\", \"Perfect!\", \"Mmm\"\n- Add emojis occasionally: 😋 🔥 ✨ 👌\n- Never mention prices unless asked\n- Keep it conversational and fun\n\nENGAGEMENT STYLE:\n- React to their energy\n- Mirror their mood\n- Make them feel heard\n- Build excitement about food\n- Ask follow-ups that show interest\n\nEXAMPLES:\nUser: \"I'm hungry\"\nYou: \"Oh, I feel you! Something filling or keeping it light?\"\n\nUser: \"Something spicy\"\nYou: \"Yes! 🔥 Thai curry brings the heat - you'll love it!\"\n\nUser: \"Vegetarian?\"\nYou: \"Absolutely! The quinoa bowl is fantastic - super satisfying!\"\n\nUser: \"What's good?\"\nYou: \"The salmon's incredible today! Or feeling adventurous?\"\n\nUser: \"I'm tired\"\nYou: \"Comfort food time! The mac & cheese is like a warm hug.\"\n\nUser: \"Tell me more\"\nYou: \"It's this creamy coconut curry with perfect spice balance. Fresh veggies, aromatic herbs - total flavor bomb! Want ingredients?\"\n\nRemember: Connect first, suggest second. Make them smile!"

/-- The system prompt the shared instance builds at startup. -/
def clean_system_prompt : String := clean_build_system_prompt MENU_DATA

/-- The rule-based step of the clean pipeline: run the fallback
responder on `MENU_DATA` and fold the greeting flag back into the
instance state.  On an exception (`none`) the state mutations already
performed remain. -/
def clean_fallback_step (seed : Nat) (st : CleanState) (user_message : String) :
    Option RuleResponse × CleanState :=
  match generate_fallback_response MENU_DATA st.greeting_used seed user_message with
  | some (r, gu) => (some r, { st with greeting_used := gu })
  | none => (none, st)

/-- `IntelligentAI._generate_ai_response`: call the backend with the
system prompt plus the last six history entries; on success strip the
text, extract recommendations and append the assistant turn to the
history; on any backend error fall back to the rule engine. -/
def clean_generate_ai_response (b : List (String × String) → BackendResult) (seed : Nat)
    (st : CleanState) (user_message : String) : Option RuleResponse × CleanState :=
  let messages := ("system", clean_system_prompt) :: takeLast 6 st.conversation_history
  match b messages with
  | BackendResult.ok raw =>
    let text := pyTrim raw
    let recs := extract_recommendations_clean text MENU_DATA
    (some { message := text, recommendations := recs },
     { st with conversation_history := st.conversation_history ++ [("assistant", text)] })
  | BackendResult.err _ => clean_fallback_step seed st user_message

/-- `IntelligentAI.generate_response`: append the user turn to the
history, then dispatch to the backend (when configured) or to the rule
engine. -/
def IntelligentAI.generate_response (backend : Option (List (String × String) → BackendResult))
    (seed : Nat) (st : CleanState) (user_message : String) :
    Option RuleResponse × CleanState :=
  let st1 := { st with
    conversation_history := st.conversation_history ++ [("user", user_message)] }
  match backend with
  | some b => clean_generate_ai_response b seed st1 user_message
  | none => clean_fallback_step seed st1 user_message

/-- HTTP outcome of the clean chat endpoint: a 200 JSON payload or the
500 error response produced by the `except` clause. -/
inductive CleanHttp where
  | ok (response : String) (recommendations : List MenuItem)
  | err500
  deriving Repr, DecidableEq

/-- `RestaurantHandler._handle_chat`: parse the body, reject a blank
(stripped) message before any state change, otherwise run the shared
assistant; any exception becomes the 500 response. -/
def clean_handle_chat (backend : Option (List (String × String) → BackendResult))
    (seed : Nat) (st : CleanState) (rawBody : Option ChatBody) : CleanHttp × CleanState :=
  match rawBody with
  | none => (CleanHttp.err500, st)
  | some data =>
    let user_message := pyTrim (data.message.getD "")
    if user_message = "" then (CleanHttp.err500, st)
    else
      match IntelligentAI.generate_response backend seed st user_message with
      | (some r, st2) => (CleanHttp.ok r.message r.recommendations, st2)
      | (none, st2) => (CleanHttp.err500, st2)

/-! ### Async pipeline state (`app_async.py`) -/

/-- The durable store: tenant rows, per-tenant menus (already in the
store's `display_order, category, name` order) and the append-only
conversation log. -/
structure Db where
  restaurants : List Restaurant
  menus : List (String × List MenuItem)
  conversations : List ConvRecord
  deriving Repr, DecidableEq

/-- `DatabaseManager.get_restaurant_by_subdomain` (filters `active = true`). -/
def Db.get_restaurant_by_subdomain (db : Db) (s : String) : Option Restaurant :=
  db.restaurants.find? (fun r => r.subdomain == s && r.active)

/-- `DatabaseManager.get_restaurant_by_slug` (filters `active = true`). -/
def Db.get_restaurant_by_slug (db : Db) (s : String) : Option Restaurant :=
  db.restaurants.find? (fun r => r.slug == s && r.active)

/-- `DatabaseManager.get_menu_items`: the active menu of a tenant id. -/
def Db.get_menu_items (db : Db) (restaurant_id : String) : List MenuItem :=
  match db.menus.find? (fun p => p.1 == restaurant_id) with
  | some p => p.2
  | none => []

/-- `DatabaseManager.log_conversation`: append-only insert. -/
def Db.log_conversation (db : Db) (restaurant_id session_id message response : String) : Db :=
  { db with conversations := db.conversations ++
      [{ restaurant_id := restaurant_id, session_id := session_id,
         message := message, response := response }] }

/-- The Redis cache: profile and menu entries plus an availability
flag.  When `up = false` every operation raises inside the client; the
`try/except` wrappers of `RestaurantCache` turn a raised `get` into
`None` and a raised `set`/`delete` into a no-op, logging the error. -/
structure CacheState where
  restaurants : List (String × Restaurant)
  menus : List (String × List MenuItem)
  up : Bool
  deriving Repr, DecidableEq

/-- `RestaurantCache.get_restaurant`: a cache failure is caught and
reported as a miss. -/
def RestaurantCache.get_restaurant (c : CacheState) (restaurant_id : String) :
    Option Restaurant :=
  if c.up then (c.restaurants.find? (fun p => p.1 == restaurant_id)).map Prod.snd
  else none

/-- `RestaurantCache.set_restaurant`: a cache failure is caught and
the write is dropped. -/
def RestaurantCache.set_restaurant (c : CacheState) (restaurant_id : String)
    (r : Restaurant) : CacheState :=
  if c.up then
    { c with restaurants :=
        (restaurant_id, r) :: c.restaurants.filter (fun p => !(p.1 == restaurant_id)) }
  else c

/-- `RestaurantCache.get_menu`. -/
def RestaurantCache.get_menu (c : CacheState) (restaurant_id : String) :
    Option (List MenuItem) :=
  if c.up then (c.menus.find? (fun p => p.1 == restaurant_id)).map Prod.snd
  else none

/-- `RestaurantCache.set_menu`. -/
def RestaurantCache.set_menu (c : CacheState) (restaurant_id : String)
    (menu : List MenuItem) : CacheState :=
  if c.up then
    { c with menus :=
        (restaurant_id, menu) :: c.menus.filter (fun p => !(p.1 == restaurant_id)) }
  else c

/-- `RestaurantCache.invalidate_restaurant`: drop both entries. -/
def RestaurantCache.invalidate_restaurant (c : CacheState) (restaurant_id : String) :
    CacheState :=
  if c.up then
    { c with restaurants := c.restaurants.filter (fun p => !(p.1 == restaurant_id)),
             menus := c.menus.filter (fun p => !(p.1 == restaurant_id)) }
  else c

/-- The process state the async handlers act on.  `dbMenuQueries` and
`backendCalls` instrument the two externally visible effects the
claims talk about (durable-store menu reads and generative calls). -/
structure World where
  db : Db
  cache : CacheState
  dbMenuQueries : Nat
  backendCalls : Nat
  deriving Repr, DecidableEq

/-- Configuration of `MultiRestaurantAI`: the selected backend (`none`
when no API key is configured) and the process's string hash used by
the canned fallback. -/
structure Config where
  backend : Option (String → String → BackendResult)
  hashF : String → Nat

/-! ### Async pipeline operations (`MultiRestaurantAI`, `RestaurantWebApp`) -/

/-- Menu block of `MultiRestaurantAI.build_system_prompt`. -/
def async_menu_text (menu : List MenuItem) : String :=
  String.intercalate "\n" (menu.map (fun item =>
    "- " ++ item.name ++ ": " ++ item.description ++ " ($" ++ fmtPrice item.price ++ ") "
      ++ "[Category: " ++ item.category ++ ", Vegetarian: " ++ pyBool item.vegetarian
      ++ ", Vegan: " ++ pyBool item.vegan ++ ", Gluten-free: " ++ pyBool item.gluten_free
      ++ "]"))

/-- `MultiRestaurantAI.build_system_prompt`. -/
def build_system_prompt (restaurant : Restaurant) (menu_items : List MenuItem) : String :=
  let ai_name := restaurant.ai_name.getD "Sophie"
  let personality := restaurant.ai_personality.getD "friendly and helpful"
  "You are " ++ ai_name ++ ", the AI assistant for " ++ restaurant.name ++ ". \nYou are "
    ++ personality ++ ".\n\nRESTAURANT MENU:\n" ++ async_menu_text menu_items
    ++ "\n\nGUIDELINES:\n- Be warm and engaging but keep responses concise (10-20 words typically)\n- Only mention prices when specifically asked\n- Make personalized recommendations based on preferences\n- Use emojis occasionally for warmth\n- Always stay in character for "
    ++ restaurant.name ++ "\n"

/-- `MultiRestaurantAI._generate_fallback_response`: one of three
canned strings selected by the process's string hash. -/
def generate_fallback_async (hashF : String → Nat) (message : String)
    (restaurant : Restaurant) : String :=
  let ai_name := restaurant.ai_name.getD "Sophie"
  let responses := [
    "Hi! I'm " ++ ai_name ++ " from " ++ restaurant.name ++ ". What can I help you find?",
    "Looking for something specific? I'd love to help!",
    "Our menu has some amazing options. What are you in the mood for?"]
  responses.getD (hashF message % responses.length) ""

/-- JSON result of `MultiRestaurantAI.generate_response` /
`RestaurantWebApp.handle_chat`. -/
inductive ChatResult where
  | ok (response : String) (recommendations : List RecOut)
      (restaurant_name : String) (ai_name : String)
  | fail (error : String)
  deriving Repr, DecidableEq

/-- True on the `success: false` outcomes. -/
def ChatResult.isFail : ChatResult → Bool
  | ChatResult.ok _ _ _ _ => false
  | ChatResult.fail _ => true

/-- Profile stage of `MultiRestaurantAI.generate_response` (lines
244-255): cache first, then the durable store — queried **by
subdomain** with the `restaurant_id` argument — with a write-through
on a hit. -/
def profile_lookup (w : World) (restaurant_id : String) : Option Restaurant × World :=
  match RestaurantCache.get_restaurant w.cache restaurant_id with
  | some r => (some r, w)
  | none =>
    match w.db.get_restaurant_by_subdomain restaurant_id with
    | some r =>
      (some r, { w with cache := RestaurantCache.set_restaurant w.cache restaurant_id r })
    | none => (none, w)

/-- Menu stage of `MultiRestaurantAI.generate_response` (lines
257-262): a falsy cached value (`None` or `[]`) falls through to the
durable store; the result is rewritten to the cache only when
non-empty. -/
def menu_lookup (w : World) (restaurant_id dbId : String) : List MenuItem × World :=
  let cached := (RestaurantCache.get_menu w.cache restaurant_id).getD []
  if cached.isEmpty then
    let m := w.db.get_menu_items dbId
    let w2 := { w with dbMenuQueries := w.dbMenuQueries + 1 }
    if m.isEmpty then (m, w2)
    else (m, { w2 with cache := RestaurantCache.set_menu w2.cache restaurant_id m })
  else (cached, w)

/-- Generation stage of `MultiRestaurantAI.generate_response` (lines
264-296): call the backend when configured — a raised backend error is
caught by the surrounding `except` and becomes the generic failure
dict, with no conversation logged — otherwise use the canned fallback;
on success extract recommendations and log the conversation. -/
def respond (cfg : Config) (w : World) (restaurant : Restaurant)
    (menu_items : List MenuItem) (message session_id : String) : ChatResult × World :=
  match cfg.backend with
  | some call =>
    let w2 := { w with backendCalls := w.backendCalls + 1 }
    match call (build_system_prompt restaurant menu_items) message with
    | BackendResult.ok text =>
      let recommendations := extract_recommendations_async text menu_items
      let w3 := { w2 with
        db := w2.db.log_conversation restaurant.id session_id message text }
      (ChatResult.ok text recommendations restaurant.name (restaurant.ai_name.getD "Sophie"), w3)
    | BackendResult.err _ =>
      (ChatResult.fail "Failed to generate response", w2)
  | none =>
    let text := generate_fallback_async cfg.hashF message restaurant
    let recommendations := extract_recommendations_async text menu_items
    let w2 := { w with
      db := w.db.log_conversation restaurant.id session_id message text }
    (ChatResult.ok text recommendations restaurant.name (restaurant.ai_name.getD "Sophie"), w2)

/-- `MultiRestaurantAI.generate_response`: profile lookup (fail closed
when absent), menu lookup, then generation. -/
def generate_response (cfg : Config) (w : World)
    (restaurant_id message session_id : String) : ChatResult × World :=
  match profile_lookup w restaurant_id with
  | (none, w1) => (ChatResult.fail "Restaurant not found", w1)
  | (some restaurant, w1) =>
    match menu_lookup w1 restaurant_id restaurant.id with
    | (menu_items, w2) => respond cfg w2 restaurant menu_items message session_id

/-- The `if route_type == 'subdomain' ... else ...` dispatch shared by
the web handlers. -/
def lookup_by_scheme (db : Db) : Scheme → String → Option Restaurant
  | Scheme.subdomain, identifier => db.get_restaurant_by_subdomain identifier
  | Scheme.slug, identifier => db.get_restaurant_by_slug identifier

/-- JSON result of `RestaurantWebApp.handle_menu`. -/
inductive MenuResult where
  | ok (restaurant_id restaurant_name : String) (items : List MenuItem) (count : Nat)
  | fail (error : String)
  deriving Repr, DecidableEq

/-- `RestaurantWebApp.handle_menu` (lines 476-516): resolve the tenant
(resolver, then query string), fetch it from the durable store, then
the cached menu — writing the durable result through unconditionally
on a falsy cached value. -/
def handle_menu (w : World) (req : Request) : MenuResult × World :=
  match resolve_menu_tenant req with
  | none => (MenuResult.fail "Restaurant not specified", w)
  | some (route_type, identifier) =>
    match lookup_by_scheme w.db route_type identifier with
    | none => (MenuResult.fail "Restaurant not found", w)
    | some restaurant =>
      let cached := (RestaurantCache.get_menu w.cache restaurant.id).getD []
      if cached.isEmpty then
        let m := w.db.get_menu_items restaurant.id
        let w2 := { w with dbMenuQueries := w.dbMenuQueries + 1 }
        let w3 := { w2 with cache := RestaurantCache.set_menu w2.cache restaurant.id m }
        (MenuResult.ok restaurant.id restaurant.name m m.length, w3)
      else (MenuResult.ok restaurant.id restaurant.name cached cached.length, w)

/-- `RestaurantWebApp.handle_chat` (lines 518-573): resolve the tenant
(resolver, then body), validate the message, fetch the tenant row,
then call `generate_response` with the tenant's **durable id**. -/
def handle_chat (cfg : Config) (w : World) (req : Request) : ChatResult × World :=
  match resolve_chat_tenant req with
  | none => (ChatResult.fail "Restaurant not specified", w)
  | some (route_type, identifier) =>
    match req.body with
    | none => (ChatResult.fail "Failed to process message", w)
    | some data =>
      let message := pyTrim (data.message.getD "")
      let session_id := data.session_id.getD "anonymous"
      if message = "" then (ChatResult.fail "Empty message", w)
      else
        match lookup_by_scheme w.db route_type identifier with
        | none => (ChatResult.fail "Restaurant not found", w)
        | some restaurant =>
          generate_response cfg w restaurant.id message session_id

/-! ### Concrete fixtures used by the witnesses and counterexamples -/

/-- A menu item carrying no dietary flags. -/
def steakItem : MenuItem :=
  { id := 9, name := "Grilled Steak", description := "A chargrilled ribeye.",
    price := 30, category := "main", ingredients := ["beef"], allergens := [],
    vegetarian := false, vegan := false, gluten_free := true, spice_level := 1,
    prep_time := "20 minutes", calories := 700, chef_notes := "" }

/-- A menu item whose name and ingredients avoid every intent keyword. -/
def breadItem : MenuItem :=
  { id := 10, name := "Plain Bread", description := "A warm loaf.",
    price := 4, category := "appetizer", ingredients := ["flour", "water"], allergens := [],
    vegetarian := true, vegan := true, gluten_free := false, spice_level := 0,
    prep_time := "5 minutes", calories := 210, chef_notes := "" }

/-- A tenant whose durable id (`"42"`) differs from its subdomain. -/
def luigiRow : Restaurant :=
  { id := "42", name := "Luigi Trattoria", subdomain := "luigi", slug := "luigis",
    ai_name := none, ai_personality := none, welcome_message := none, active := true }

/-- A tenant whose durable id happens to equal its subdomain. -/
def luigiSameIdRow : Restaurant :=
  { id := "luigi", name := "Luigi Trattoria", subdomain := "luigi", slug := "luigis",
    ai_name := none, ai_personality := none, welcome_message := none, active := true }

/-- An empty, reachable cache. -/
def emptyCache : CacheState := { restaurants := [], menus := [], up := true }

/-- The same cache with the fast store unreachable: every operation on
it raises inside the Redis client. -/
def cacheDown (c : CacheState) : CacheState := { c with up := false }

/-- No backend configured; a fixed process hash. -/
def cfgNone : Config := { backend := none, hashF := fun _ => 0 }

/-- A configured backend whose every call fails with HTTP 500. -/
def cfgErr500 : Config :=
  { backend := some (fun _ _ => BackendResult.err 500), hashF := fun _ => 0 }

/-- A chat request routed by subdomain, message `"hello"`. -/
def chatReqLuigi : Request :=
  { host := "luigi.example.com", path := "/api/chat", query_restaurant_id := none,
    body := some { restaurant_id := none, message := some "hello", session_id := some "s1" } }

/-- A chat request routed by subdomain whose message is whitespace. -/
def blankChatReq : Request :=
  { host := "luigi.example.com", path := "/api/chat", query_restaurant_id := none,
    body := some { restaurant_id := none, message := some "   ", session_id := none } }

/-- A menu request routed by subdomain. -/
def menuReqLuigi : Request :=
  { host := "luigi.example.com", path := "/api/menu", query_restaurant_id := none,
    body := none }

/-- A request carrying a non-reserved subdomain plus a `/r/` path and
query/body hints, for precedence checks. -/
def c2ReqPlain : Request :=
  { host := "luigi.example.com", path := "/r/mario", query_restaurant_id := some "q",
    body := some { restaurant_id := some "b", message := none, session_id := none } }

/-- A request with the reserved `www` label and a `/r/` path. -/
def c2ReqReserved : Request :=
  { host := "www.example.com", path := "/r/mario", query_restaurant_id := none,
    body := none }

/-- A chat request with no host/path tenant, a `restaurant_id` in the
query string and a different one in the body. -/
def c7ChatReq : Request :=
  { host := "localhost", path := "/api/chat", query_restaurant_id := some "qslug",
    body := some { restaurant_id := some "bslug", message := some "hi", session_id := none } }

/-- A menu request with no host/path tenant and a `restaurant_id` only
in the body. -/
def c7MenuReq : Request :=
  { host := "localhost", path := "/api/menu", query_restaurant_id := none,
    body := some { restaurant_id := some "bslug", message := none, session_id := none } }

/-- World with `luigiRow` in the store, nothing cached. -/
def c9World : World :=
  { db := { restaurants := [luigiRow], menus := [], conversations := [] },
    cache := emptyCache, dbMenuQueries := 0, backendCalls := 0 }

/-- World with `luigiSameIdRow` in the store, nothing cached. -/
def c1World : World :=
  { db := { restaurants := [luigiSameIdRow], menus := [], conversations := [] },
    cache := emptyCache, dbMenuQueries := 0, backendCalls := 0 }

/-- World with `luigiRow` stored and its profile cached, its active
menu empty in the durable store. -/
def c10World : World :=
  { db := { restaurants := [luigiRow], menus := [], conversations := [] },
    cache := { restaurants := [("42", luigiRow)], menus := [], up := true },
    dbMenuQueries := 0, backendCalls := 0 }

/-! ## Theorems -/

/-- The async extractor's scan loop never grows past two entries. -/
theorem extractAsyncGo_length (rl : String) (l : List MenuItem) :
    ∀ acc : List RecOut, acc.length ≤ 1 → (extractAsyncGo rl l acc).length ≤ 2 := by
  induction l with
  | nil =>
    intro acc h
    simpa [extractAsyncGo] using h.trans (by omega)
  | cons item rest ih =>
    intro acc h
    simp only [extractAsyncGo]
    split
    · split
      · simp only [List.length_append, List.length_singleton]
        omega
      · apply ih
        rename_i h2
        simp only [List.length_append, List.length_singleton] at h2 ⊢
        omega
    · exact ih acc h

/-- Every entry the async scan loop adds was matched as a substring. -/
theorem extractAsyncGo_names (rl : String) (l : List MenuItem) :
    ∀ acc : List RecOut, (∀ r ∈ acc, strIn (pyLower r.name) rl = true) →
      ∀ r ∈ extractAsyncGo rl l acc, strIn (pyLower r.name) rl = true := by
  induction l with
  | nil =>
    intro acc h
    simpa [extractAsyncGo] using h
  | cons item rest ih =>
    intro acc h
    simp only [extractAsyncGo]
    split
    · rename_i hm
      have hacc2 : ∀ r ∈ acc ++ [recOf item], strIn (pyLower r.name) rl = true := by
        intro r hr
        rcases List.mem_append.mp hr with h1 | h1
        · exact h r h1
        · have hr2 : r = recOf item := by simpa using h1
          subst hr2
          simpa [recOf] using hm
      split
      · exact hacc2
      · exact ih _ hacc2
    · exact ih acc h

/-- The clean extractor's scan loop never grows past two entries. -/
theorem extractCleanGo_length (rl : String) (l : List MenuItem) :
    ∀ acc : List MenuItem, acc.length ≤ 1 → (extractCleanGo rl l acc).length ≤ 2 := by
  induction l with
  | nil =>
    intro acc h
    simpa [extractCleanGo] using h.trans (by omega)
  | cons item rest ih =>
    intro acc h
    simp only [extractCleanGo]
    split
    · split
      · simp only [List.length_append, List.length_singleton]
        omega
      · apply ih
        rename_i h2
        simp only [List.length_append, List.length_singleton] at h2 ⊢
        omega
    · exact ih acc h

/-- C3 (amended): both extractors return at most two items, and in the
async pipeline every returned item's name is a verbatim
case-insensitive substring of the input text, scanned in menu
iteration order.  (The clean extractor also matches on an item's first
two ingredients and falls back to the first two featured items when
nothing matches, so its returned names need not occur in the text —
see the counterexample.) -/
theorem c3_extraction_bounded (response : String) (menu : List MenuItem) :
    (extract_recommendations_async response menu).length ≤ 2 ∧
    (extract_recommendations_async response menu).all
      (fun r => strIn (pyLower r.name) (pyLower response)) = true ∧
    (extract_recommendations_clean response menu).length ≤ 2 := by
  refine ⟨?_, ?_, ?_⟩
  · exact extractAsyncGo_length (pyLower response) menu [] (by simp)
  · rw [List.all_eq_true]
    intro r hr
    exact extractAsyncGo_names (pyLower response) menu [] (by simp) r hr
  · unfold extract_recommendations_clean
    dsimp only
    split
    · exact List.length_take_le 2 _
    · exact extractCleanGo_length (pyLower response) menu [] (by simp)

set_option maxRecDepth 4000 in
/-- C3 counterexample: on the generated text `"hello"` and the clean
pipeline's own menu, extraction returns a non-empty recommendation
list although no returned item's name occurs in the text, refuting
the claim that every returned item's name is a verbatim
case-insensitive substring of the input. -/
theorem c3_counterexample :
    (extract_recommendations_clean "hello" MENU_DATA).all
      (fun i => strIn (pyLower i.name) (pyLower "hello")) = false ∧
    (extract_recommendations_clean "hello" MENU_DATA) ≠ [] := by
  exact ⟨by decide, by decide⟩

/-- C2: for every request whose (lower-cased) host contains a `.`, if
the leftmost host label is outside the reserved set {www, app, api}
the resolver returns `(subdomain, label)` — regardless of path, query
parameters and body, over which the statement is universally
quantified — and if the label is reserved, resolution skips to
path-based `/r/<slug>` matching. -/
theorem c2_resolver_host_precedence (req : Request)
    (hdot : pyContainsChar (pyLower req.host) '.' = true) :
    (reserved_subdomains.contains (leftLabel req.host) = false →
      get_restaurant_from_request req = some (Scheme.subdomain, leftLabel req.host)) ∧
    (reserved_subdomains.contains (leftLabel req.host) = true →
      get_restaurant_from_request req = path_route req.path) := by
  constructor
  · intro hres
    simp only [leftLabel] at hres
    have hne : ¬(reserved_subdomains.contains
        ((pySplit (pyLower req.host) '.').headD "") = true) := by
      rw [hres]
      exact Bool.false_ne_true
    simp only [get_restaurant_from_request]
    rw [if_pos hdot, if_neg hne]
    rfl
  · intro hres
    simp only [leftLabel] at hres
    simp only [get_restaurant_from_request]
    rw [if_pos hdot, if_pos hres]

/-- Witness for C2 at concrete requests: `luigi.example.com` resolves
by subdomain even though a `/r/mario` path, a query `restaurant_id`
and a body `restaurant_id` are all present; `www.example.com` falls
through to path routing. -/
theorem c2_resolver_host_precedence_witness :
    get_restaurant_from_request c2ReqPlain = some (Scheme.subdomain, "luigi") ∧
    get_restaurant_from_request c2ReqReserved = path_route "/r/mario" := by
  constructor
  · exact (c2_resolver_host_precedence c2ReqPlain (by decide)).1 (by decide)
  · exact (c2_resolver_host_precedence c2ReqReserved (by decide)).2 (by decide)

/-- C7 (amended): when neither host nor path yields a tenant, the menu
endpoint falls back to the `restaurant_id` query parameter **only**
(its resolution is independent of the body), and the chat endpoint
falls back to the `restaurant_id` body field **only** (its resolution
is independent of the query string); a non-empty value resolves to the
slug scheme in each case. -/
theorem c7_fallback_split (req : Request) (b1 b2 : Option ChatBody)
    (q1 q2 : Option String) (rid : String) (data : ChatBody) :
    (resolve_menu_tenant { req with body := b1 }
      = resolve_menu_tenant { req with body := b2 }) ∧
    (resolve_chat_tenant { req with query_restaurant_id := q1 }
      = resolve_chat_tenant { req with query_restaurant_id := q2 }) ∧
    (get_restaurant_from_request req = none → req.query_restaurant_id = some rid →
      rid ≠ "" → resolve_menu_tenant req = some (Scheme.slug, rid)) ∧
    (get_restaurant_from_request req = none → req.body = some data →
      data.restaurant_id = some rid → rid ≠ "" →
      resolve_chat_tenant req = some (Scheme.slug, rid)) := by
  refine ⟨rfl, rfl, ?_, ?_⟩
  · intro h0 hq hne
    simp [resolve_menu_tenant, h0, hq, hne]
  · intro h0 hb hrid hne
    simp [resolve_chat_tenant, h0, hb, hrid, hne]

/-- Witness for C7 at concrete requests: the menu resolver ignores the
body, the chat resolver ignores the query string, and each non-empty
fallback value resolves to the slug scheme. -/
theorem c7_fallback_split_witness :
    resolve_menu_tenant { c7MenuReq with body := none }
      = resolve_menu_tenant { c7MenuReq with body := c7MenuReq.body } ∧
    resolve_chat_tenant { c7ChatReq with query_restaurant_id := none }
      = resolve_chat_tenant { c7ChatReq with query_restaurant_id := some "qslug" } ∧
    resolve_menu_tenant { c7MenuReq with query_restaurant_id := some "rid" }
      = some (Scheme.slug, "rid") ∧
    resolve_chat_tenant c7ChatReq = some (Scheme.slug, "bslug") := by
  have h := c7_fallback_split
    { c7MenuReq with query_restaurant_id := some "rid" } none c7MenuReq.body none
    (some "qslug") "rid"
    { restaurant_id := some "rid", message := none, session_id := none }
  have h2 := c7_fallback_split c7ChatReq none none none (some "qslug") "bslug"
    { restaurant_id := some "bslug", message := some "hi", session_id := none }
  refine ⟨?_, ?_, ?_, ?_⟩
  · exact c7_fallback_split c7MenuReq none c7MenuReq.body none none ""
      { restaurant_id := none, message := none, session_id := none } |>.1
  · exact h2.2.1
  · exact h.2.2.1 (by decide) (by decide) (by decide)
  · exact h2.2.2.2 (by decide) (by decide) (by decide) (by decide)

/-- C7 counterexample: the claim's query-then-body precedence on every
tenant-scoped endpoint fails — a chat request carrying both hints
resolves to the **body** value (`bslug`) rather than the query value
(`qslug`), and a menu request carrying only a body hint does not
resolve at all. -/
theorem c7_counterexample :
    resolve_chat_tenant c7ChatReq = some (Scheme.slug, "bslug") ∧
    c7ChatReq.query_restaurant_id = some "qslug" ∧ ("bslug" : String) ≠ "qslug" ∧
    resolve_menu_tenant c7MenuReq = none ∧
    (c7MenuReq.body.map (fun d => d.restaurant_id)) = some (some "bslug") := by
  refine ⟨by decide, by decide, by decide, by decide, by decide⟩

/-- On a non-empty menu, `_handle_menu_query` cannot raise: the only
exception path is `min()`/`max()` over the empty price list. -/
theorem handle_menu_query_isSome (menu : List MenuItem) (seed : Nat) (m : String)
    (h : menu ≠ []) : (handle_menu_query menu seed m).isSome = true := by
  rcases menu with _ | ⟨a, l⟩
  · exact absurd rfl h
  · simp only [handle_menu_query]
    split
    · simp
    · split
      · simp
      · simp

/-- C4 (amended): for every non-empty input string and every
**non-empty** menu, the Rule Engine returns a response — a message and
a recommendation list — and any message matching none of the intent
categories resolves to the general-conversation handler.  (On an
empty menu a price/cost menu-query raises, and the recommendation
list can be empty on a non-empty menu when a dietary filter matches
no items — see the counterexample.) -/
theorem c4_rule_engine_total (menu : List MenuItem) (gu : Bool) (seed : Nat)
    (msg : String) (_hmsg : msg ≠ "") (hmenu : menu ≠ []) :
    (∃ r, generate_fallback_response menu gu seed msg = some r) ∧
    (is_greeting (pyTrim (pyLower msg)) = false →
     is_menu_query (pyTrim (pyLower msg)) = false →
     is_dietary_query (pyTrim (pyLower msg)) = false →
     is_recommendation_request (pyTrim (pyLower msg)) = false →
     is_specific_item_query menu (pyTrim (pyLower msg)) = false →
     generate_fallback_response menu gu seed msg
       = some (handle_general_conversation menu seed (pyTrim (pyLower msg)), gu)) := by
  constructor
  · have hs : (generate_fallback_response menu gu seed msg).isSome = true := by
      simp only [generate_fallback_response]
      split
      · rfl
      · split
        · simpa [Option.isSome_map] using handle_menu_query_isSome menu seed _ hmenu
        · split
          · rfl
          · split
            · rfl
            · split
              · rfl
              · rfl
    exact Option.isSome_iff_exists.mp hs
  · intro h1 h2 h3 h4 h5
    simp only [generate_fallback_response, h1, h2, h3, h4, h5, Bool.false_eq_true,
      if_false]

/-- Witness for C4 at a concrete keyword-free message and a singleton
menu, resolving to the general-conversation handler. -/
theorem c4_rule_engine_total_witness :
    ("zzz" : String) ≠ "" ∧ ([breadItem] : List MenuItem) ≠ [] ∧
    (∃ r, generate_fallback_response [breadItem] false 0 "zzz" = some r) ∧
    generate_fallback_response [breadItem] false 0 "zzz"
      = some (handle_general_conversation [breadItem] 0 (pyTrim (pyLower "zzz")), false) := by
  have h := c4_rule_engine_total [breadItem] false 0 "zzz" (by decide) (by decide)
  exact ⟨by decide, by decide, h.1,
    h.2 (by decide) (by decide) (by decide) (by decide) (by decide)⟩

/-- C4 counterexample: on the message `"vegetarian"` and a non-empty
menu with no vegetarian item, the Rule Engine returns an **empty**
recommendation list, refuting the claim that the list is empty only if
the menu is empty; and on the non-empty message
`"what do the dishes cost"` with an empty menu, the Rule Engine raises
(`min()` of an empty price sequence), refuting the claim that it never
throws for every menu. -/
theorem c4_counterexample :
    ((generate_fallback_response [steakItem] false 0 "vegetarian").map
      (fun p => p.1.recommendations)) = some [] ∧
    ([steakItem] : List MenuItem) ≠ [] ∧ ("vegetarian" : String) ≠ "" ∧
    generate_fallback_response [] false 0 "what do the dishes cost" = none ∧
    ("what do the dishes cost" : String) ≠ "" := by
  refine ⟨by decide, by decide, by decide, by decide, by decide⟩

set_option maxRecDepth 4000 in
/-- C6: the greeting dialogue state of the clean pipeline is a single
mutable flag on the process-wide shared `IntelligentAI` instance, not
keyed by session id: after any first greeting the flag is set, and the
next greeting — from any session, since `_handle_chat` passes no
session identifier at all — receives the repeat variant instead of the
first-turn variant. -/
theorem c6_greeting_flag_shared :
    (IntelligentAI.generate_response none 0 ⟨[], false⟩ "hello").2.greeting_used = true ∧
    ((IntelligentAI.generate_response none 0 ⟨[], false⟩ "hello").1.map
      (fun r => r.message)) = some (greeting_first_responses.getD 0 "") ∧
    ((IntelligentAI.generate_response none 0
        (IntelligentAI.generate_response none 0 ⟨[], false⟩ "hello").2 "hello").1.map
      (fun r => r.message)) = some (greeting_repeat_responses.getD 0 "") := by
  refine ⟨by decide, by decide, by decide⟩

/-- Reading back a menu entry just written (reachable cache). -/
theorem get_menu_set_menu_self (c : CacheState) (rid : String) (menu : List MenuItem)
    (hup : c.up = true) :
    RestaurantCache.get_menu (RestaurantCache.set_menu c rid menu) rid = some menu := by
  simp [RestaurantCache.get_menu, RestaurantCache.set_menu, hup]

/-- A menu write never touches the profile entries. -/
theorem get_restaurant_set_menu (c : CacheState) (rid rid2 : String)
    (menu : List MenuItem) :
    RestaurantCache.get_restaurant (RestaurantCache.set_menu c rid menu) rid2
      = RestaurantCache.get_restaurant c rid2 := by
  cases hup : c.up <;> simp [RestaurantCache.get_restaurant, RestaurantCache.set_menu, hup]

/-- The generation stage never issues a durable-store menu query. -/
theorem respond_preserves_menu_queries (cfg : Config) (w : World) (r : Restaurant)
    (menu_items : List MenuItem) (msg sid : String) :
    (respond cfg w r menu_items msg sid).2.dbMenuQueries = w.dbMenuQueries := by
  rcases hcb : cfg.backend with _ | call
  · simp [respond, hcb]
  · rcases hcall : call (build_system_prompt r menu_items) msg with text | status
    · simp [respond, hcb, hcall]
    · simp [respond, hcb, hcall]

/-- C8: a chat request whose message is blank after trimming is
rejected before any side effect, in both pipelines: the async handler
returns an error response and the world — cache, durable store,
conversation log, backend-call and menu-query counters — is returned
unchanged (and the error is `Empty message` whenever a tenant was
resolvable); the clean handler returns its 500 error response with the
shared assistant state unchanged. -/
theorem c8_blank_message_no_side_effects (cfg : Config) (w : World) (req : Request)
    (data : ChatBody) (backend : Option (List (String × String) → BackendResult))
    (seed : Nat) (st : CleanState)
    (hb : req.body = some data) (hblank : pyTrim (data.message.getD "") = "") :
    (handle_chat cfg w req).2 = w ∧
    (handle_chat cfg w req).1.isFail = true ∧
    (resolve_chat_tenant req ≠ none →
      (handle_chat cfg w req).1 = ChatResult.fail "Empty message") ∧
    clean_handle_chat backend seed st (some data) = (CleanHttp.err500, st) := by
  have hmain : handle_chat cfg w req =
      ((match resolve_chat_tenant req with
        | none => ChatResult.fail "Restaurant not specified"
        | some _ => ChatResult.fail "Empty message"), w) := by
    simp only [handle_chat, hb]
    cases hres : resolve_chat_tenant req with
    | none => rfl
    | some p =>
      rcases p with ⟨rt, ident⟩
      dsimp only
      rw [if_pos hblank]
  refine ⟨?_, ?_, ?_, ?_⟩
  · rw [hmain]
  · rw [hmain]
    cases resolve_chat_tenant req <;> rfl
  · intro hne
    rw [hmain]
    cases hres : resolve_chat_tenant req with
    | none => exact absurd hres hne
    | some p => rfl
  · simp only [clean_handle_chat]
    rw [if_pos hblank]

/-- Witness for C8 at a concrete whitespace message. -/
theorem c8_blank_message_no_side_effects_witness :
    (handle_chat cfgNone c9World blankChatReq).2 = c9World ∧
    (handle_chat cfgNone c9World blankChatReq).1 = ChatResult.fail "Empty message" ∧
    clean_handle_chat none 0 ⟨[], false⟩ blankChatReq.body
      = (CleanHttp.err500, ⟨[], false⟩) := by
  have h := c8_blank_message_no_side_effects cfgNone c9World blankChatReq
    { restaurant_id := none, message := some "   ", session_id := none }
    none 0 ⟨[], false⟩ (by decide) (by decide)
  exact ⟨h.1, h.2.2.1 (by decide), h.2.2.2⟩

/-- C9: `handle_chat` passes the tenant's durable id to
`generate_response`, which on a profile-cache miss queries the durable
store **by subdomain** with that id; hence when no tenant's subdomain
equals the id (in particular when ids and subdomains are disjoint),
the chat fails with `Restaurant not found` although the tenant exists
and was just fetched by the handler. -/
theorem c9_chat_uses_id_as_subdomain (cfg : Config) (w : World) (req : Request)
    (rt : Scheme) (ident : String) (data : ChatBody) (r : Restaurant)
    (hres : resolve_chat_tenant req = some (rt, ident))
    (hb : req.body = some data)
    (hmsg : ¬pyTrim (data.message.getD "") = "")
    (hfound : lookup_by_scheme w.db rt ident = some r)
    (hcache : RestaurantCache.get_restaurant w.cache r.id = none)
    (hmiss : w.db.get_restaurant_by_subdomain r.id = none) :
    handle_chat cfg w req = (ChatResult.fail "Restaurant not found", w) := by
  simp only [handle_chat, hres, hb]
  rw [if_neg hmsg]
  rw [hfound]
  simp only [generate_response, profile_lookup, hcache, hmiss]

/-- Witness for C9: tenant `luigi` exists and is active with durable
id `"42"`, its profile is not cached, and the chat request that
resolves it fails with `Restaurant not found`. -/
theorem c9_chat_uses_id_as_subdomain_witness :
    handle_chat cfgNone c9World chatReqLuigi
      = (ChatResult.fail "Restaurant not found", c9World) ∧
    luigiRow.id ≠ luigiRow.subdomain ∧
    c9World.db.get_restaurant_by_subdomain "luigi" = some luigiRow := by
  refine ⟨?_, by decide, by decide⟩
  exact c9_chat_uses_id_as_subdomain cfgNone c9World chatReqLuigi Scheme.subdomain "luigi"
    { restaurant_id := none, message := some "hello", session_id := some "s1" } luigiRow
    (by decide) (by decide) (by decide) (by decide) (by decide) (by decide)

/-- C10: the menu stages treat any falsy cached value as a miss, so a
cached empty menu is never served: after `handle_menu` stores the
tenant's empty durable menu in the cache, the entry reads back as
`some []`, yet an immediately following `handle_menu` and an
immediately following chat-pipeline `generate_response` each issue a
fresh durable-store menu query. -/
theorem c10_empty_menu_cache_never_served (w : World) (req : Request) (rt : Scheme)
    (ident : String) (r : Restaurant) (cfg : Config) (msg sid : String)
    (hres : resolve_menu_tenant req = some (rt, ident))
    (hfound : lookup_by_scheme w.db rt ident = some r)
    (hup : w.cache.up = true)
    (hmc : (RestaurantCache.get_menu w.cache r.id).getD [] = [])
    (hmenu : w.db.get_menu_items r.id = [])
    (hprof : RestaurantCache.get_restaurant w.cache r.id = some r) :
    RestaurantCache.get_menu (handle_menu w req).2.cache r.id = some [] ∧
    (handle_menu w req).2.dbMenuQueries = w.dbMenuQueries + 1 ∧
    (handle_menu (handle_menu w req).2 req).2.dbMenuQueries = w.dbMenuQueries + 2 ∧
    (generate_response cfg (handle_menu w req).2 r.id msg sid).2.dbMenuQueries
      = w.dbMenuQueries + 2 := by
  have hred : handle_menu w req =
      (MenuResult.ok r.id r.name ([] : List MenuItem) ([] : List MenuItem).length,
       { w with dbMenuQueries := w.dbMenuQueries + 1,
                cache := RestaurantCache.set_menu w.cache r.id [] }) := by
    simp only [handle_menu, hres, hfound]
    rw [hmc, hmenu]
    simp
  have hup1 : (RestaurantCache.set_menu w.cache r.id []).up = true := by
    simp [RestaurantCache.set_menu, hup]
  refine ⟨?_, ?_, ?_, ?_⟩
  · rw [hred]
    exact get_menu_set_menu_self w.cache r.id [] hup
  · rw [hred]
  · rw [hred]
    simp only [handle_menu, hres, hfound]
    rw [get_menu_set_menu_self w.cache r.id [] hup]
    rw [hmenu]
    simp
  · rw [hred]
    simp only [generate_response, profile_lookup,
      get_restaurant_set_menu w.cache r.id r.id [], hprof]
    simp only [menu_lookup]
    rw [get_menu_set_menu_self w.cache r.id [] hup]
    simp only [Option.getD_some, List.isEmpty_nil, if_true, hmenu]
    rw [respond_preserves_menu_queries]

/-- Witness for C10 at a concrete world whose tenant has an empty
active menu and a cached profile. -/
theorem c10_empty_menu_cache_never_served_witness :
    RestaurantCache.get_menu (handle_menu c10World menuReqLuigi).2.cache "42" = some [] ∧
    (handle_menu c10World menuReqLuigi).2.dbMenuQueries = 1 ∧
    (handle_menu (handle_menu c10World menuReqLuigi).2 menuReqLuigi).2.dbMenuQueries = 2 ∧
    (generate_response cfgNone (handle_menu c10World menuReqLuigi).2 "42" "hi"
      "s1").2.dbMenuQueries = 2 := by
  exact c10_empty_menu_cache_never_served c10World menuReqLuigi Scheme.subdomain "luigi"
    luigiRow cfgNone "hi" "s1" (by decide) (by decide) (by decide) (by decide)
    (by decide) (by decide)

/-- The profile stage never writes to the durable store. -/
theorem profile_lookup_db (w : World) (rid : String) :
    (profile_lookup w rid).2.db = w.db := by
  rcases h1 : RestaurantCache.get_restaurant w.cache rid with _ | r
  · rcases h2 : w.db.get_restaurant_by_subdomain rid with _ | r2
    · simp [profile_lookup, h1, h2]
    · simp [profile_lookup, h1, h2]
  · simp [profile_lookup, h1]

/-- The menu stage never writes to the durable store. -/
theorem menu_lookup_db (w : World) (rid dbId : String) :
    (menu_lookup w rid dbId).2.db = w.db := by
  by_cases hc : ((RestaurantCache.get_menu w.cache rid).getD []).isEmpty = true
  · by_cases hm : (w.db.get_menu_items dbId).isEmpty = true
    · simp [menu_lookup, hc, hm]
    · simp [menu_lookup, hc, hm]
  · simp [menu_lookup, hc]

/-- The generation stage's reply and durable-store effect do not
depend on the cache or the counters of the world it runs in. -/
theorem respond_world_independent (cfg : Config) (w w' : World) (r : Restaurant)
    (menu_items : List MenuItem) (msg sid : String) (hdb : w.db = w'.db) :
    (respond cfg w r menu_items msg sid).1 = (respond cfg w' r menu_items msg sid).1 ∧
    (respond cfg w r menu_items msg sid).2.db
      = (respond cfg w' r menu_items msg sid).2.db := by
  rcases hcb : cfg.backend with _ | call
  · simp [respond, hcb, hdb]
  · rcases hcall : call (build_system_prompt r menu_items) msg with text | status
    · simp [respond, hcb, hcall, hdb]
    · simp [respond, hcb, hcall, hdb]

/-- C5: a cache failure never fails a profile or menu lookup and is
never surfaced: with the fast store unreachable, the chat pipeline's
reply and its durable-store effect, and the menu endpoint's reply and
durable-store effect, coincide exactly with those of a run over a
reachable cache that simply misses — i.e. the read degrades to the
durable-store query path. -/
theorem c5_cache_failure_transparent (cfg : Config) (db : Db) (cache : CacheState)
    (dq bc : Nat) (rid msg sid : String) (req : Request) :
    ((generate_response cfg
        { db := db, cache := cacheDown cache, dbMenuQueries := dq, backendCalls := bc }
        rid msg sid).1
      = (generate_response cfg
        { db := db, cache := emptyCache, dbMenuQueries := dq, backendCalls := bc }
        rid msg sid).1) ∧
    ((generate_response cfg
        { db := db, cache := cacheDown cache, dbMenuQueries := dq, backendCalls := bc }
        rid msg sid).2.db
      = (generate_response cfg
        { db := db, cache := emptyCache, dbMenuQueries := dq, backendCalls := bc }
        rid msg sid).2.db) ∧
    ((handle_menu
        { db := db, cache := cacheDown cache, dbMenuQueries := dq, backendCalls := bc }
        req).1
      = (handle_menu
        { db := db, cache := emptyCache, dbMenuQueries := dq, backendCalls := bc }
        req).1) ∧
    ((handle_menu
        { db := db, cache := cacheDown cache, dbMenuQueries := dq, backendCalls := bc }
        req).2.db
      = (handle_menu
        { db := db, cache := emptyCache, dbMenuQueries := dq, backendCalls := bc }
        req).2.db) := by
  have hgd : ∀ x, RestaurantCache.get_restaurant (cacheDown cache) x = none := by
    intro x
    simp [RestaurantCache.get_restaurant, cacheDown]
  have hge : ∀ x, RestaurantCache.get_restaurant emptyCache x = none := by
    intro x
    simp [RestaurantCache.get_restaurant, emptyCache]
  have hmd : ∀ x, RestaurantCache.get_menu (cacheDown cache) x = none := by
    intro x
    simp [RestaurantCache.get_menu, cacheDown]
  have hme : ∀ x, RestaurantCache.get_menu emptyCache x = none := by
    intro x
    simp [RestaurantCache.get_menu, emptyCache]
  have hsd : ∀ x r, RestaurantCache.set_restaurant (cacheDown cache) x r = cacheDown cache := by
    intro x r
    simp [RestaurantCache.set_restaurant, cacheDown]
  have hmse : ∀ x y r, RestaurantCache.get_menu
      (RestaurantCache.set_restaurant emptyCache y r) x = none := by
    intro x y r
    simp [RestaurantCache.get_menu, RestaurantCache.set_restaurant, emptyCache]
  have hgen : (generate_response cfg
        { db := db, cache := cacheDown cache, dbMenuQueries := dq, backendCalls := bc }
        rid msg sid).1
      = (generate_response cfg
        { db := db, cache := emptyCache, dbMenuQueries := dq, backendCalls := bc }
        rid msg sid).1 ∧
      (generate_response cfg
        { db := db, cache := cacheDown cache, dbMenuQueries := dq, backendCalls := bc }
        rid msg sid).2.db
      = (generate_response cfg
        { db := db, cache := emptyCache, dbMenuQueries := dq, backendCalls := bc }
        rid msg sid).2.db := by
    rcases hdb : db.get_restaurant_by_subdomain rid with _ | r
    · constructor <;>
        simp [generate_response, profile_lookup, hgd, hge, hdb]
    · by_cases hm : (db.get_menu_items r.id).isEmpty = true
      · have := respond_world_independent cfg
          { db := db, cache := cacheDown cache, dbMenuQueries := dq + 1, backendCalls := bc }
          { db := db,
            cache := RestaurantCache.set_restaurant emptyCache rid r,
            dbMenuQueries := dq + 1, backendCalls := bc }
          r (db.get_menu_items r.id) msg sid rfl
        constructor
        · simpa [generate_response, profile_lookup, menu_lookup, hgd, hge, hdb, hsd,
            hmd, hme, hmse, hm] using this.1
        · simpa [generate_response, profile_lookup, menu_lookup, hgd, hge, hdb, hsd,
            hmd, hme, hmse, hm] using this.2
      · have := respond_world_independent cfg
          { db := db,
            cache := RestaurantCache.set_menu (cacheDown cache) rid (db.get_menu_items r.id),
            dbMenuQueries := dq + 1, backendCalls := bc }
          { db := db,
            cache := RestaurantCache.set_menu
              (RestaurantCache.set_restaurant emptyCache rid r) rid
              (db.get_menu_items r.id),
            dbMenuQueries := dq + 1, backendCalls := bc }
          r (db.get_menu_items r.id) msg sid rfl
        constructor
        · simpa [generate_response, profile_lookup, menu_lookup, hgd, hge, hdb, hsd,
            hmd, hme, hmse, hm] using this.1
        · simpa [generate_response, profile_lookup, menu_lookup, hgd, hge, hdb, hsd,
            hmd, hme, hmse, hm] using this.2
  refine ⟨hgen.1, hgen.2, ?_⟩
  rcases hres : resolve_menu_tenant req with _ | ⟨rt, ident⟩
  · constructor <;> simp [handle_menu, hres]
  · rcases hfound : lookup_by_scheme db rt ident with _ | r
    · constructor <;> simp [handle_menu, hres, hfound]
    · constructor <;> simp [handle_menu, hres, hfound, hmd, hme]

/-- C1 (amended): when the configured generative backend fails on
every call, the async pipeline catches the error but does **not** fall
back: the caller receives the generic failure
`Failed to generate response` (never the raw upstream error) and no
conversation is logged; the clean pipeline does fall back — its
response is exactly the one produced with no backend configured, i.e.
the Rule Engine output, and no exception propagates. -/
theorem c1_backend_failure_behavior (w : World) (hashF : String → Nat)
    (rid msg sid : String) (c seed : Nat) (st : CleanState) (r : Restaurant)
    (hprof : (profile_lookup w rid).1 = some r) :
    ((generate_response { backend := some (fun _ _ => BackendResult.err c), hashF := hashF }
        w rid msg sid).1 = ChatResult.fail "Failed to generate response") ∧
    ((generate_response { backend := some (fun _ _ => BackendResult.err c), hashF := hashF }
        w rid msg sid).2.db.conversations = w.db.conversations) ∧
    (IntelligentAI.generate_response (some (fun _ => BackendResult.err c)) seed st msg
      = IntelligentAI.generate_response none seed st msg) := by
  rcases hpl : profile_lookup w rid with ⟨ropt, w1⟩
  rcases ropt with _ | r'
  · rw [hpl] at hprof
    exact absurd hprof (by simp)
  · have hw1db : w1.db = w.db := by
      have := profile_lookup_db w rid
      rw [hpl] at this
      exact this
    rcases hml : menu_lookup w1 rid r'.id with ⟨m, w2⟩
    have hw2db : w2.db = w1.db := by
      have := menu_lookup_db w1 rid r'.id
      rw [hml] at this
      exact this
    refine ⟨?_, ?_, ?_⟩
    · simp [generate_response, hpl, hml, respond]
    · simp [generate_response, hpl, hml, respond, hw2db, hw1db]
    · rfl

/-- Witness for C1 at a concrete world holding an active tenant. -/
theorem c1_backend_failure_behavior_witness :
    ((generate_response
        { backend := some (fun _ _ => BackendResult.err 500), hashF := fun _ => 0 }
        c9World "luigi" "hello" "s1").1
      = ChatResult.fail "Failed to generate response") ∧
    ((generate_response
        { backend := some (fun _ _ => BackendResult.err 500), hashF := fun _ => 0 }
        c9World "luigi" "hello" "s1").2.db.conversations = c9World.db.conversations) ∧
    (IntelligentAI.generate_response (some (fun _ => BackendResult.err 500)) 0
        ⟨[], false⟩ "hello"
      = IntelligentAI.generate_response none 0 ⟨[], false⟩ "hello") :=
  c1_backend_failure_behavior c9World (fun _ => 0) "luigi" "hello" "s1" 500 0
    ⟨[], false⟩ luigiRow (by decide)

set_option maxRecDepth 4000 in
/-- C1 counterexample: an end-to-end chat request against a configured
backend answering HTTP 500 — the async pipeline returns the failure
dict `Failed to generate response` to the caller instead of Rule
Engine output, and the conversation log stays empty, refuting the
claimed fallback-and-log behavior. -/
theorem c1_counterexample :
    (handle_chat cfgErr500 c1World chatReqLuigi).1
      = ChatResult.fail "Failed to generate response" ∧
    (handle_chat cfgErr500 c1World chatReqLuigi).2.db.conversations = [] := by
  exact ⟨by decide, by decide⟩

end RestaurantAI
